import Mathlib

/-!
Shallow embedding of the Lumina backend generation orchestrator.

Definitions are translated from the Go sources:
* `internal/services` (MiniMax service): narration speed calculator, TTS
  parameter clamping, video generation parameter clamping, task polling.
* `internal/handlers`: WebSocket hub, music/video generation handlers,
  credit checks, credit ledger writes.
* `internal/models`: `Generation`, `CreditTransaction` records.

External effects (HTTP calls to the provider, the filesystem, the media
muxer) are modelled as environment inputs; the database is modelled as an
explicit state record.  Go `float64` arithmetic is modelled with exact
rationals (`ℚ`); the one place where IEEE semantics is observable on the
reachable inputs (division by a zero target duration, which yields `+Inf`
in Go and hence exceeds every finite threshold) is made explicit by a
dedicated branch.  Go's `int(x)` float-to-integer conversion truncates
toward zero, modelled by `ratTruncToInt`.
-/

namespace Lumina

/-! ### Narration speed calculator (services.CalculateOptimalSpeed) -/

/-- Go `strings.Fields` counts maximal runs of non-whitespace characters.
`countFields cs inWord` counts the fields of `cs` given whether the scan is
currently inside a field. -/
def countFields : List Char → Bool → Nat
  | [], _ => 0
  | c :: rest, inWord =>
    if c.isWhitespace then countFields rest false
    else (if inWord then 0 else 1) + countFields rest true

/-- `len(strings.Fields(text))` from the Go source. -/
def wordCount (text : String) : Nat := countFields text.data false

/-- `EstimateTTSDuration`: `float64(words) / 2.5`. -/
def EstimateTTSDuration (text : String) : ℚ := (wordCount text : ℚ) / (5 / 2)

/-- Go's `int(x)` conversion on a finite float truncates toward zero. -/
def ratTruncToInt (q : ℚ) : Int := if 0 ≤ q then ⌊q⌋ else ⌈q⌉

/-- Result of `CalculateOptimalSpeed`: a speed, or `ErrNarrationTooLong`
(the only error the Go function returns). -/
inductive SpeedResult where
  | ok (speed : ℚ)
  | narrationTooLong
deriving DecidableEq, Repr

/-- `services.CalculateOptimalSpeed` (part_000 lines 254-276).  The
`targetDuration = 0` branch makes the Go float semantics explicit: there
`requiredSpeed` is `+Inf`, which exceeds the `1.3` and `1.5` thresholds, so
the function returns `ErrNarrationTooLong`.  (That branch is reachable only
for `videoDuration = 0` with a non-empty narration.) -/
def CalculateOptimalSpeed (text : String) (videoDuration : Int) : SpeedResult :=
  let estimatedDuration := EstimateTTSDuration text
  let target0 : ℚ := (videoDuration : ℚ) - 1 / 2
  let targetDuration : ℚ := if target0 ≤ 0 then (videoDuration : ℚ) else target0
  if estimatedDuration ≤ targetDuration then .ok 1
  else if targetDuration = 0 then .narrationTooLong
  else
    let requiredSpeed := estimatedDuration / targetDuration
    if requiredSpeed > 13 / 10 then
      if requiredSpeed > 3 / 2 then .narrationTooLong
      else .ok (13 / 10)
    else .ok ((ratTruncToInt (requiredSpeed * 10) : ℚ) / 10)

/-! ### TTS parameter clamping (services.GenerateTTSWithSpeed) -/

/-- Default voice used when the request carries no voice id. -/
def ttsDefaultVoice : String := "male-qn-qingse"

/-- The `(voice_id, speed)` pair actually placed in the TTS request body by
`GenerateTTSWithSpeed` (part_000 lines 393-423): empty voice id is replaced
by the default, speed is clamped into `[0.5, 2.0]`. -/
def ttsSentParams (voiceID : String) (speed : ℚ) : String × ℚ :=
  let v := if voiceID = "" then ttsDefaultVoice else voiceID
  let s1 := if speed < 1 / 2 then (1 / 2 : ℚ) else speed
  let s2 := if s1 > 2 then (2 : ℚ) else s1
  (v, s2)

/-! ### Video generation parameter clamping (services.GenerateVideo) -/

/-- The model family test `model == "MiniMax-Hailuo-02" || model == "hailuo-02"`
used by `GenerateVideo` (part_000 lines 474 and 495). -/
def isHailuoFamily (model : String) : Bool :=
  model = "MiniMax-Hailuo-02" || model = "hailuo-02"

/-- The parameters of the provider call assembled by
`MiniMaxService.GenerateVideo` (part_000 lines 464-500).  `resolution` is
the request body's resolution field, which is only included for the
Hailuo-02 family (`none` otherwise). -/
structure VideoCallParams where
  model : String
  duration : Int
  resolution : Option String
deriving DecidableEq, Repr

/-- Parameter computation of `MiniMaxService.GenerateVideo`: model default,
model-dependent duration cap, non-positive-duration default, forced `768P`
above 6 seconds, and the Hailuo resolution default. -/
def clampVideoCall (model0 : String) (duration0 : Int) (resolution0 : String) :
    VideoCallParams :=
  let model := if model0 = "" then "video-01" else model0
  let maxDuration : Int :=
    if isHailuoFamily model ∧ resolution0 ≠ "1080P" then 10 else 6
  let d1 := if duration0 ≤ 0 then 6 else duration0
  let d2 := if d1 > maxDuration then maxDuration else d1
  let res1 := if d2 > 6 then "768P" else resolution0
  let sent :=
    if isHailuoFamily model then some (if res1 = "" then "768P" else res1)
    else none
  { model := model, duration := d2, resolution := sent }

/-! ### Task poller (services.WaitForCompletion) -/

/-- The fields of `MiniMaxTaskStatus` the poll loop inspects. -/
structure TaskStatusRec where
  status : String
  fileID : String
  downloadURL : String
deriving DecidableEq, Repr

/-- Terminal outcomes of the poll loop: deadline exceeded (`errors.New("timeout")`),
provider-reported failure (`ErrMiniMaxJobFailed`), or a failing
`GetFileDownloadURL` lookup whose error is returned as-is. -/
inductive PollErr where
  | timeout
  | jobFailed
  | fileLookupFailed
deriving DecidableEq, Repr

/-- One tick of the poll loop, as seen from the loop: either `GetTaskStatus`
returned an error, or it returned a status record; `fileLookup` is the
outcome `GetFileDownloadURL` would produce at that moment (`none` = error),
consulted only when the status carries a non-empty `file_id`. -/
inductive PollTick where
  | queryErr
  | result (st : TaskStatusRec) (fileLookup : Option String)
deriving DecidableEq, Repr

/-- Poll outcome: the final status record or an error. -/
inductive PollOutcome where
  | ok (st : TaskStatusRec)
  | error (e : PollErr)
deriving DecidableEq, Repr

/-- The body of `WaitForCompletion`'s loop (part_000 lines 615-649) over the
sequence of remaining ticks before the deadline; the empty list means the
next wakeup is past the deadline. -/
def pollLoop : List PollTick → PollOutcome
  | [] => .error .timeout
  | .queryErr :: rest => pollLoop rest
  | .result st lookup :: rest =>
    if st.status = "Success" ∨ st.status = "Completed" then
      if st.fileID ≠ "" then
        match lookup with
        | none => .error .fileLookupFailed
        | some url => .ok { st with downloadURL := url }
      else .ok st
    else if st.status = "Failed" ∨ st.status = "Error" then .error .jobFailed
    else pollLoop rest

/-- `WaitForCompletion taskEnv timeoutSeconds`: ticks fire at 5-second
intervals; tick `k` (0-based, firing at time `5*(k+1)`) is processed iff
`5*(k+1)` is not strictly after the deadline, i.e. iff `k < timeoutSeconds / 5`. -/
def WaitForCompletion (taskEnv : Nat → PollTick) (timeoutSeconds : Nat) : PollOutcome :=
  pollLoop ((List.range (timeoutSeconds / 5)).map taskEnv)

/-- A label neither in the terminal-success set nor the terminal-failure set. -/
def nonTerminalLabel (s : String) : Prop :=
  ¬ (s = "Success" ∨ s = "Completed") ∧ ¬ (s = "Failed" ∨ s = "Error")

/-- A tick that cannot terminate the loop: a query error or a
non-terminal label. -/
def nonTerminalTick : PollTick → Prop
  | .queryErr => True
  | .result st _ => nonTerminalLabel st.status

/-! ### Notification hub (handlers.WSHub) -/

/-- One registered connection: the connection handle (modelled by an id)
and the owning user (jwt.go lines 166-169). -/
structure WSClient where
  connId : Nat
  userId : Nat
deriving DecidableEq, Repr

/-- The hub's registry of live connections, a map keyed by connection.
Modelled as a list with distinct `connId`s maintained by
`register`/`unregister`. -/
structure WSHub where
  clients : List WSClient
deriving DecidableEq, Repr

/-- `WSHub.Register`: map insert keyed by the connection. -/
def WSHub.register (h : WSHub) (c : WSClient) : WSHub :=
  ⟨c :: h.clients.filter (fun d => d.connId ≠ c.connId)⟩

/-- `WSHub.Unregister`: map delete keyed by the connection. -/
def WSHub.unregister (h : WSHub) (connId : Nat) : WSHub :=
  ⟨h.clients.filter (fun d => d.connId ≠ connId)⟩

/-- `WSHub.SendToUser` (jwt.go lines 192-200): iterate over every
registered client, and for each one owned by `uid` call `WriteJSON`,
ignoring its error.  `writeFails` is the environment telling which
connections' writes fail.  The returned list records every attempted
delivery `(connId, delivered?)`; the function is total — the Go method has
no error return. -/
def sendToUser (h : WSHub) (uid : Nat) (writeFails : Nat → Bool) : List (Nat × Bool) :=
  h.clients.foldr
    (fun c acc => if c.userId = uid then (c.connId, !(writeFails c.connId)) :: acc else acc)
    []

/-! ### Poll timeout selection (handlers.GenerateVideo) -/

/-- The timeout (in seconds) passed to `WaitForCompletion` by the video
handler (jwt.go lines 637-640): 300 by default, 600 only for the exact
model string `"MiniMax-Hailuo-02"`. -/
def pollTimeoutSeconds (model : String) : Nat :=
  if model = "MiniMax-Hailuo-02" then 600 else 300

/-! ### Data model (internal/models) -/

/-- `models.GenerationType`. -/
inductive GenerationType where
  | music
  | video
deriving DecidableEq, Repr

/-- `models.GenerationStatus`. -/
inductive GenerationStatus where
  | pending
  | processing
  | completed
  | failed
deriving DecidableEq, Repr

/-- `models.Generation` (part_002), restricted to the fields the
orchestrator reads or writes. -/
structure Generation where
  id : Nat
  userId : Nat
  type : GenerationType
  status : GenerationStatus
  title : String := ""
  prompt : String := ""
  lyrics : String := ""
  narration : String := ""
  voiceId : String := ""
  style : String := ""
  duration : Int := 0
  resolution : String := ""
  model : String := ""
  outputURL : String := ""
  thumbnailURL : String := ""
  miniMaxJobID : String := ""
  errorMessage : String := ""
  metadata : String := ""
  creditsCost : Int := 1
deriving DecidableEq, Repr

/-- `models.CreditTransaction` (subscription.go lines 52-64). -/
structure CreditTransaction where
  userId : Nat
  amount : Int
  type : String
  description : String
  generationId : Option Nat
  balanceBefore : Int
  balanceAfter : Int
deriving DecidableEq, Repr

/-- The persistence collaborator's state: per-user credit balances, the
generations table and the credit-transactions table (append-ordered). -/
structure DB where
  credits : Nat → Int
  generations : List Generation
  transactions : List CreditTransaction

/-- `db.Create(&generation)`. -/
def DB.createGen (db : DB) (g : Generation) : DB :=
  { db with generations := db.generations ++ [g] }

/-- `db.Save(&generation)`: update the row with the same primary key. -/
def DB.saveGen (db : DB) (g : Generation) : DB :=
  { db with generations := db.generations.map (fun h => if h.id = g.id then g else h) }

/-- `db.Model(&user).Update("credits", gorm.Expr("credits - ?", amount))`:
a relative in-database decrement of the live balance. -/
def DB.debit (db : DB) (uid : Nat) (amount : Int) : DB :=
  { db with credits := fun u => if u = uid then db.credits u - amount else db.credits u }

/-- `db.Create(&models.CreditTransaction{...})`: append a ledger entry. -/
def DB.addTx (db : DB) (t : CreditTransaction) : DB :=
  { db with transactions := db.transactions ++ [t] }

/-- The ledger entries referencing a given generation. -/
def txFor (db : DB) (genId : Nat) : List CreditTransaction :=
  db.transactions.filter (fun t => t.generationId = some genId)

/-! ### Generation handlers (internal/handlers, jwt.go after the
separator).  Cache invalidation and WebSocket notifications are external
side effects without observable state in this model and are omitted;
`middleware.SanitizeInput` is out of scope (assumed correct) and modelled
as the identity. -/

/-- `models.GenerateMusicRequest`. -/
structure MusicRequest where
  model : String := ""
  format : String := ""
  bitrate : Int := 0
  title : String := ""
  prompt : String := ""
  lyrics : String := ""
  style : String := ""
deriving DecidableEq, Repr

/-- `models.GenerateVideoRequest`. -/
structure VideoRequest where
  title : String := ""
  prompt : String := ""
  duration : Int := 0
  resolution : String := ""
  model : String := ""
  narration : String := ""
  voiceId : String := ""
deriving DecidableEq, Repr

/-- The data the spawned goroutine closes over: the created generation row
and the `user.Credits` value loaded by the handler before launching it. -/
structure PendingJob where
  gen : Generation
  userCredits : Int
deriving DecidableEq, Repr

/-- The message of the narration-too-long rejection
(`fmt.Sprintf("Narration has %d words, max ~%d words for %ds video.", ...)`). -/
def narrationTooLongMessage (wc : Nat) (maxWords duration : Int) : String :=
  "Narration has " ++ toString wc ++ " words, max ~" ++ toString maxWords ++
    " words for " ++ toString duration ++ "s video."

/-- `int(float64(duration) * 2.5 * 1.3)` from the rejection branch
(jwt.go line 541). -/
def maxWordsFor (duration : Int) : Int :=
  ratTruncToInt ((duration : ℚ) * (5 / 2) * (13 / 10))

/-- Synchronous outcome of a generation handler, after validation and user
lookup succeeded. -/
inductive SubmitStep where
  | rejectedPayment
  | rejectedNarration (message : String)
  | demoCompleted (g : Generation)
  | launched (p : PendingJob)
deriving DecidableEq, Repr

/-- Placeholder returned by the music demo path (jwt.go line 297). -/
def demoMusicURL : String := "https://www.soundhelix.com/examples/mp3/SoundHelix-Song-1.mp3"

/-- Placeholder returned by the video demo path (jwt.go line 577). -/
def demoVideoURL : String := "https://www.w3schools.com/html/mov_bbb.mp4"

/-- `creditCost := 2; if req.Narration != "" { creditCost = 3 }`
(jwt.go lines 512-515). -/
def videoCreditCost (narration : String) : Int :=
  if narration ≠ "" then 3 else 2

/-- The synchronous part of `handlers.GenerateMusic` (jwt.go lines 257-313
and 467-471), from the user lookup on: credit check, row creation, and
either the demo (unconfigured-provider) completion or the launch of the
pipeline goroutine.  `newId` is the primary key assigned by the insert. -/
def musicSubmit (configured : Bool) (db : DB) (uid newId : Nat) (req : MusicRequest) :
    DB × SubmitStep :=
  let credits := db.credits uid
  if credits < 1 then (db, .rejectedPayment)
  else
    let g : Generation :=
      { id := newId, userId := uid, type := .music, status := .processing,
        title := req.title, prompt := req.prompt, lyrics := req.lyrics,
        style := req.style, creditsCost := 1 }
    let db1 := db.createGen g
    if ¬ configured then
      let g2 := { g with status := .completed, outputURL := demoMusicURL }
      (db1.saveGen g2, .demoCompleted g2)
    else (db1, .launched ⟨g, credits⟩)

/-- The synchronous part of `handlers.GenerateVideo` (jwt.go lines 504-593):
user lookup, credit-cost computation, credit check, request-field defaults,
the narration-length rejection, row creation, then demo completion or
pipeline launch. -/
def videoSubmit (configured : Bool) (db : DB) (uid newId : Nat) (req : VideoRequest) :
    DB × SubmitStep :=
  let credits := db.credits uid
  let cost := videoCreditCost req.narration
  if credits < cost then (db, .rejectedPayment)
  else
    let model := if req.model = "" then "video-01" else req.model
    let duration := if req.duration = 0 then 6 else req.duration
    let resolution := if req.resolution = "" then "768P" else req.resolution
    if req.narration ≠ "" ∧ CalculateOptimalSpeed req.narration duration = .narrationTooLong then
      (db, .rejectedNarration
        (narrationTooLongMessage (wordCount req.narration) (maxWordsFor duration) duration))
    else
      let g : Generation :=
        { id := newId, userId := uid, type := .video, status := .processing,
          title := req.title, prompt := req.prompt, narration := req.narration,
          voiceId := req.voiceId, duration := duration, resolution := resolution,
          model := model, creditsCost := cost }
      let db1 := db.createGen g
      if ¬ configured then
        let g2 := { g with status := .completed, outputURL := demoVideoURL }
        (db1.saveGen g2, .demoCompleted g2)
      else (db1, .launched ⟨g, credits⟩)

/-! ### Background pipelines -/

/-- `strings.HasPrefix s p` over the character lists. -/
def startsWithChars : List Char → List Char → Bool
  | _, [] => true
  | [], _ :: _ => false
  | a :: as, b :: bs => a = b && startsWithChars as bs

/-- `strings.HasPrefix` on strings. -/
def strStartsWith (s p : String) : Bool := startsWithChars s.data p.data

/-- Value of one hexadecimal digit, as in Go's `encoding/hex`. -/
def hexDigitVal (c : Char) : Option Nat :=
  if '0' ≤ c ∧ c ≤ '9' then some (c.toNat - '0'.toNat)
  else if 'a' ≤ c ∧ c ≤ 'f' then some (c.toNat - 'a'.toNat + 10)
  else if 'A' ≤ c ∧ c ≤ 'F' then some (c.toNat - 'A'.toNat + 10)
  else none

/-- `hex.DecodeString` on a character list: bytes from digit pairs; odd
length or a non-hex character is an error. -/
def hexDecodeList : List Char → Option (List Nat)
  | [] => some []
  | [_] => none
  | a :: b :: rest =>
    match hexDigitVal a, hexDigitVal b, hexDecodeList rest with
    | some hi, some lo, some bs => some ((16 * hi + lo) :: bs)
    | _, _, _ => none

/-- `hex.DecodeString` from Go's `encoding/hex`. -/
def hexDecode (s : String) : Option (List Nat) := hexDecodeList s.data

/-- Terminal `Failed` transition shared by every pipeline failure path:
record the error message, set `StatusFailed`, save.  (Cache invalidation
and the `generation_failed` notification are external effects.)  No ledger
entry is written. -/
def failGeneration (db : DB) (g : Generation) (msg : String) : DB × Generation :=
  let g2 := { g with status := .failed, errorMessage := msg }
  (db.saveGen g2, g2)

/-- The fixed placeholder color palette (jwt.go line 430). -/
def placeholderColors : List String :=
  ["6366f1", "8b5cf6", "ec4899", "f43f5e", "f97316", "eab308",
   "22c55e", "14b8a6", "06b6d4", "3b82f6"]

/-- The album-art fallback chosen by `generation.ID mod palette size`. -/
def placeholderThumb (genId : Nat) : String :=
  "https://placehold.co/400x400/" ++
    placeholderColors.getD (genId % placeholderColors.length) "" ++
    "/white?text=note"

/-- Environment of the music pipeline goroutine: the outcome of the
provider's `GenerateMusic` call (`none` = error, otherwise
`(data.audio, extra_info)`), the outcome of `os.WriteFile`, and the
outcome of `GenerateImage` (`none` = error). -/
structure MusicEnv where
  providerResp : Option (String × String)
  writeOk : Bool
  imageURL : Option String
deriving DecidableEq, Repr

/-- The completion tail of the music goroutine (jwt.go lines 438-456):
set `StatusCompleted`, save, decrement the live balance by 1 and append the
usage ledger entry built from the handler's `user.Credits` snapshot. -/
def completeMusic (db : DB) (g : Generation) (userCredits : Int)
    (audioURL thumb extraInfo : String) : DB × Generation :=
  let g2 := { g with status := GenerationStatus.completed, outputURL := audioURL,
                     thumbnailURL := thumb, metadata := extraInfo }
  let db2 := ((db.saveGen g2).debit g.userId 1).addTx
    { userId := g.userId, amount := -1, type := "usage",
      description := "Music generation", generationId := some g.id,
      balanceBefore := userCredits, balanceAfter := userCredits - 1 }
  (db2, g2)

/-- The music pipeline goroutine (jwt.go lines 315-465): provider call,
audio decoding/storage, album art with placeholder fallback, then the
terminal transition. -/
def runMusicPipeline (env : MusicEnv) (db : DB) (g : Generation) (userCredits : Int) :
    DB × Generation :=
  match env.providerResp with
  | none => failGeneration db g "music generation failed"
  | some (audioData, extraInfo) =>
    let finish (audioURL : String) : DB × Generation :=
      let thumb :=
        match env.imageURL with
        | none => placeholderThumb g.id
        | some u => u
      completeMusic db g userCredits audioURL thumb extraInfo
    if audioData = "" then finish ""
    else if strStartsWith audioData "http" then finish audioData
    else
      match hexDecode audioData with
      | none => failGeneration db g "Failed to decode audio data"
      | some _ =>
        if env.writeOk then finish ("/uploads/audio/" ++ toString g.id ++ ".mp3")
        else failGeneration db g "Failed to save audio file"

/-- Environment of the video pipeline goroutine: `GenerateVideo` start
(`none` = error, otherwise the task id), `WaitForCompletion` (`none` =
error/timeout, otherwise the download URL), `GenerateTTSWithSpeed`
(`none` = error, otherwise the audio payload) and `CombineVideoWithAudio`. -/
structure VideoEnv where
  startResp : Option String
  waitResp : Option String
  ttsResp : Option String
  combineOk : Bool
deriving DecidableEq, Repr

/-- The video pipeline goroutine (jwt.go lines 595-732).  The TTS and mux
sub-steps degrade softly: their failures record an error message on the
job but the pipeline still completes with the silent video.  The final
debit uses the goroutine's captured `creditCost`, which equals the stored
`CreditsCost`. -/
def runVideoPipeline (env : VideoEnv) (db : DB) (p : PendingJob) : DB × Generation :=
  let g := p.gen
  match env.startResp with
  | none => failGeneration db g "video generation failed"
  | some taskId =>
    let g1 := { g with miniMaxJobID := taskId }
    let db1 := db.saveGen g1
    match env.waitResp with
    | none => failGeneration db1 g1 "video processing failed"
    | some url =>
      let (g2, videoURL) :=
        if g1.narration ≠ "" then
          match env.ttsResp with
          | none => ({ g1 with errorMessage := "TTS failed" }, url)
          | some _audio =>
            if env.combineOk then
              (g1, "/uploads/video/" ++ toString g1.id ++ "_with_audio.mp4")
            else ({ g1 with errorMessage := "Combine failed" }, url)
        else (g1, url)
      let g3 := { g2 with status := GenerationStatus.completed, outputURL := videoURL }
      let db2 := ((db1.saveGen g3).debit g3.userId g3.creditsCost).addTx
        { userId := g3.userId, amount := -g3.creditsCost, type := "usage",
          description := "Video generation", generationId := some g3.id,
          balanceBefore := p.userCredits, balanceAfter := p.userCredits - g3.creditsCost }
      (db2, g3)

/-- `handlers.GenerateMusic` end to end for one request: the synchronous
part followed (for a launched job) by the goroutine run to completion.
Returns the final database and the job's final record (`none` when the
request was rejected before creating one). -/
def generateMusic (configured : Bool) (env : MusicEnv) (db : DB) (uid newId : Nat)
    (req : MusicRequest) : DB × Option Generation :=
  match musicSubmit configured db uid newId req with
  | (db1, .launched p) =>
    let (db2, g) := runMusicPipeline env db1 p.gen p.userCredits
    (db2, some g)
  | (db1, .demoCompleted g) => (db1, some g)
  | (db1, _) => (db1, none)

/-- `handlers.GenerateVideo` end to end for one request, as `generateMusic`. -/
def generateVideo (configured : Bool) (env : VideoEnv) (db : DB) (uid newId : Nat)
    (req : VideoRequest) : DB × Option Generation :=
  match videoSubmit configured db uid newId req with
  | (db1, .launched p) =>
    let (db2, g) := runVideoPipeline env db1 p
    (db2, some g)
  | (db1, .demoCompleted g) => (db1, some g)
  | (db1, _) => (db1, none)

/-! ### Concrete instances used by counterexamples and witnesses -/

/-- Whether a poll outcome is a successful termination. -/
def PollOutcome.isSuccess : PollOutcome → Bool
  | .ok _ => true
  | .error _ => false

/-- A 30-word narration used to exercise the too-long rejection. -/
def c7narr : String :=
  "w w w w w w w w w w w w w w w w w w w w w w w w w w w w w w"

/-- A database with one user (id 7) holding 10 credits and empty tables. -/
def c2db0 : DB := ⟨fun _ => 10, [], []⟩

/-- The music request used in the concurrent-completion scenario. -/
def c2req : MusicRequest := { prompt := "a calm piano piece", lyrics := "la la la la" }

/-- A fully succeeding music environment: the provider returns a direct
URL and the album art call succeeds. -/
def c2envOK : MusicEnv :=
  { providerResp := some ("http://audio.example/a.mp3", ""),
    writeOk := true, imageURL := some "http://img.example/i.png" }

/-- The concurrent-completion scenario C2 exercises, exactly as the Go
code can execute it: user 7 submits two music jobs (ids 1 and 2) while
holding 10 credits — each handler loads `user` and the goroutine closes
over that snapshot — and only then do both pipelines complete. -/
def c2scenario : DB :=
  let step1 := musicSubmit true c2db0 7 1 c2req
  let step2 := musicSubmit true step1.1 7 2 c2req
  let db3 :=
    match step1.2 with
    | .launched p => (runMusicPipeline c2envOK step2.1 p.gen p.userCredits).1
    | _ => step2.1
  match step2.2 with
  | .launched p => (runMusicPipeline c2envOK db3 p.gen p.userCredits).1
  | _ => db3

/-- A database with one user (id 0) holding 10 credits, for the demo-mode
counterexample. -/
def c1db0 : DB := ⟨fun _ => 10, [], []⟩

/-- The music request used in the demo-mode counterexample. -/
def c1req : MusicRequest := { prompt := "a calm piano piece", lyrics := "la la la la" }

/-- The demo-mode (unconfigured provider) run of the music handler. -/
def c1run : DB × Option Generation :=
  generateMusic false ⟨none, false, none⟩ c1db0 0 1 c1req

/-- The job record produced by a configured music run whose provider call
fails, starting from `c1db0` with request `c1req` and new id 1. -/
def c1failedGen : Generation :=
  { id := 1, userId := 0, type := .music, status := .failed,
    prompt := "a calm piano piece", lyrics := "la la la la",
    errorMessage := "music generation failed" }

/-! ## Shared lemmas -/

theorem txFor_createGen (db : DB) (g : Generation) (i : Nat) :
    txFor (db.createGen g) i = txFor db i := rfl

theorem txFor_saveGen (db : DB) (g : Generation) (i : Nat) :
    txFor (db.saveGen g) i = txFor db i := rfl

theorem txFor_debit (db : DB) (uid : Nat) (a : Int) (i : Nat) :
    txFor (db.debit uid a) i = txFor db i := rfl

theorem txFor_addTx (db : DB) (t : CreditTransaction) (i : Nat) :
    txFor (db.addTx t) i =
      txFor db i ++ if t.generationId = some i then [t] else [] := by
  simp only [txFor, DB.addTx, List.filter_append]
  split_ifs with h <;> simp [List.filter, h]

theorem txFor_complete (db0 : DB) (t : CreditTransaction) (i : Nat)
    (hfresh : txFor db0 i = []) (hid : t.generationId = some i) :
    txFor (db0.addTx t) i = [t] := by
  rw [txFor_addTx, hfresh, if_pos hid]
  simp

theorem failGeneration_cases (db : DB) (g0 : Generation) (msg : String)
    (db' : DB) (g : Generation) (heq : failGeneration db g0 msg = (db', g)) :
    g.status = .failed ∧ ∀ i, txFor db' i = txFor db i := by
  simp only [failGeneration] at heq
  injection heq with h1 h2
  subst h1
  subst h2
  exact ⟨rfl, fun i => rfl⟩

theorem completeMusic_cases (db : DB) (g0 : Generation) (uc : Int)
    (audioURL thumb extraInfo : String) (db' : DB) (g : Generation)
    (hfresh : txFor db g0.id = [])
    (heq : completeMusic db g0 uc audioURL thumb extraInfo = (db', g)) :
    g.status = .completed ∧ g.creditsCost = g0.creditsCost ∧
      txFor db' g0.id =
        [⟨g0.userId, -1, "usage", "Music generation", some g0.id, uc, uc - 1⟩] := by
  simp only [completeMusic] at heq
  injection heq with h1 h2
  subst h1
  subst h2
  refine ⟨rfl, rfl, ?_⟩
  rw [txFor_addTx, txFor_debit, txFor_saveGen, hfresh]
  simp

theorem runMusicPipeline_cases (env : MusicEnv) (db : DB) (g0 : Generation)
    (uc : Int) (db' : DB) (g : Generation) (hfresh : txFor db g0.id = [])
    (heq : runMusicPipeline env db g0 uc = (db', g)) :
    (g.status = .completed ∧ g.creditsCost = g0.creditsCost ∧
      ∃ t, txFor db' g0.id = [t] ∧ t.amount = -1) ∨
    (g.status = .failed ∧ txFor db' g0.id = []) := by
  simp only [runMusicPipeline] at heq
  cases hresp : env.providerResp with
  | none =>
    rw [hresp] at heq
    obtain ⟨hst, htx⟩ := failGeneration_cases _ _ _ _ _ heq
    exact Or.inr ⟨hst, by rw [htx, hfresh]⟩
  | some pr =>
    obtain ⟨audioData, extraInfo⟩ := pr
    rw [hresp] at heq
    simp only [] at heq
    by_cases ha : audioData = ""
    · rw [if_pos ha] at heq
      obtain ⟨h1, h2, h3⟩ := completeMusic_cases _ _ _ _ _ _ _ _ hfresh heq
      exact Or.inl ⟨h1, h2, _, h3, rfl⟩
    · rw [if_neg ha] at heq
      by_cases hb : strStartsWith audioData "http" = true
      · rw [if_pos hb] at heq
        obtain ⟨h1, h2, h3⟩ := completeMusic_cases _ _ _ _ _ _ _ _ hfresh heq
        exact Or.inl ⟨h1, h2, _, h3, rfl⟩
      · rw [if_neg hb] at heq
        cases hdec : hexDecode audioData with
        | none =>
          rw [hdec] at heq
          obtain ⟨hst, htx⟩ := failGeneration_cases _ _ _ _ _ heq
          exact Or.inr ⟨hst, by rw [htx, hfresh]⟩
        | some bs =>
          rw [hdec] at heq
          simp only [] at heq
          by_cases hw : env.writeOk = true
          · rw [if_pos hw] at heq
            obtain ⟨h1, h2, h3⟩ := completeMusic_cases _ _ _ _ _ _ _ _ hfresh heq
            exact Or.inl ⟨h1, h2, _, h3, rfl⟩
          · rw [if_neg hw] at heq
            obtain ⟨hst, htx⟩ := failGeneration_cases _ _ _ _ _ heq
            exact Or.inr ⟨hst, by rw [htx, hfresh]⟩

theorem runVideoPipeline_cases (env : VideoEnv) (db : DB) (p : PendingJob)
    (db' : DB) (g : Generation) (hfresh : txFor db p.gen.id = [])
    (heq : runVideoPipeline env db p = (db', g)) :
    (g.status = .completed ∧
      ∃ t, txFor db' p.gen.id = [t] ∧ t.amount = -g.creditsCost) ∨
    (g.status = .failed ∧ txFor db' p.gen.id = []) := by
  simp only [runVideoPipeline] at heq
  cases hstart : env.startResp with
  | none =>
    rw [hstart] at heq
    obtain ⟨hst, htx⟩ := failGeneration_cases _ _ _ _ _ heq
    exact Or.inr ⟨hst, by rw [htx, hfresh]⟩
  | some taskId =>
    rw [hstart] at heq
    simp only [] at heq
    cases hwait : env.waitResp with
    | none =>
      rw [hwait] at heq
      obtain ⟨hst, htx⟩ := failGeneration_cases _ _ _ _ _ heq
      exact Or.inr ⟨hst, by rw [htx, txFor_saveGen, hfresh]⟩
    | some url =>
      rw [hwait] at heq
      simp only [] at heq
      by_cases hn : p.gen.narration ≠ ""
      · rw [if_pos hn] at heq
        cases htts : env.ttsResp with
        | none =>
          rw [htts] at heq
          simp only [] at heq
          injection heq with h1 h2
          subst h1
          subst h2
          exact Or.inl ⟨rfl, _,
            txFor_complete _ _ _
              (by rw [txFor_debit, txFor_saveGen, txFor_saveGen, hfresh]) rfl, rfl⟩
        | some audio =>
          rw [htts] at heq
          simp only [] at heq
          by_cases hc : env.combineOk = true
          · rw [if_pos hc] at heq
            injection heq with h1 h2
            subst h1
            subst h2
            exact Or.inl ⟨rfl, _,
              txFor_complete _ _ _
                (by rw [txFor_debit, txFor_saveGen, txFor_saveGen, hfresh]) rfl, rfl⟩
          · rw [if_neg hc] at heq
            injection heq with h1 h2
            subst h1
            subst h2
            exact Or.inl ⟨rfl, _,
              txFor_complete _ _ _
                (by rw [txFor_debit, txFor_saveGen, txFor_saveGen, hfresh]) rfl, rfl⟩
      · rw [if_neg hn] at heq
        injection heq with h1 h2
        subst h1
        subst h2
        exact Or.inl ⟨rfl, _,
          txFor_complete _ _ _
            (by rw [txFor_debit, txFor_saveGen, txFor_saveGen, hfresh]) rfl, rfl⟩

theorem musicSubmit_cases (cfg : Bool) (db : DB) (uid newId : Nat)
    (req : MusicRequest) (db1 : DB) (s : SubmitStep)
    (h : musicSubmit cfg db uid newId req = (db1, s)) :
    (db1 = db ∧ s = .rejectedPayment) ∨
    ((∀ i, txFor db1 i = txFor db i) ∧
      ((cfg = false ∧ ∃ g2, s = .demoCompleted g2 ∧ g2.status = .completed) ∨
       (cfg = true ∧ ∃ p, s = .launched p ∧ p.gen.id = newId ∧
         p.gen.creditsCost = 1))) := by
  by_cases h1 : db.credits uid < 1
  · simp only [musicSubmit, if_pos h1] at h
    injection h with ha hb
    exact Or.inl ⟨ha.symm, hb.symm⟩
  · cases cfg with
    | false =>
      simp only [musicSubmit, if_neg h1, Bool.not_false, if_pos trivial] at h
      injection h with ha hb
      subst ha
      refine Or.inr ⟨fun i => by rw [txFor_saveGen, txFor_createGen], Or.inl ⟨rfl, ?_⟩⟩
      exact ⟨_, hb.symm, rfl⟩
    | true =>
      simp only [musicSubmit, if_neg h1, Bool.not_true] at h
      rw [if_neg (by simp)] at h
      injection h with ha hb
      subst ha
      refine Or.inr ⟨fun i => by rw [txFor_createGen], Or.inr ⟨rfl, ?_⟩⟩
      exact ⟨_, hb.symm, rfl, rfl⟩

theorem videoSubmit_cases (cfg : Bool) (db : DB) (uid newId : Nat)
    (req : VideoRequest) (db1 : DB) (s : SubmitStep)
    (h : videoSubmit cfg db uid newId req = (db1, s)) :
    (db1 = db ∧ (s = .rejectedPayment ∨ ∃ m, s = .rejectedNarration m)) ∨
    ((∀ i, txFor db1 i = txFor db i) ∧
      ((cfg = false ∧ ∃ g2, s = .demoCompleted g2 ∧ g2.status = .completed) ∨
       (cfg = true ∧ ∃ p, s = .launched p ∧ p.gen.id = newId ∧
         p.gen.creditsCost = videoCreditCost req.narration))) := by
  by_cases h1 : db.credits uid < videoCreditCost req.narration
  · simp only [videoSubmit, if_pos h1] at h
    injection h with ha hb
    exact Or.inl ⟨ha.symm, Or.inl hb.symm⟩
  · by_cases h2 : req.narration ≠ "" ∧
      CalculateOptimalSpeed req.narration
        (if req.duration = 0 then 6 else req.duration) = .narrationTooLong
    · simp only [videoSubmit, if_neg h1, if_pos h2] at h
      injection h with ha hb
      exact Or.inl ⟨ha.symm, Or.inr ⟨_, hb.symm⟩⟩
    · cases cfg with
      | false =>
        simp only [videoSubmit, if_neg h1, if_neg h2, Bool.not_false,
          if_pos trivial] at h
        injection h with ha hb
        subst ha
        refine Or.inr ⟨fun i => by rw [txFor_saveGen, txFor_createGen],
          Or.inl ⟨rfl, ?_⟩⟩
        exact ⟨_, hb.symm, rfl⟩
      | true =>
        simp only [videoSubmit, if_neg h1, if_neg h2, Bool.not_true] at h
        rw [if_neg (by simp)] at h
        injection h with ha hb
        subst ha
        refine Or.inr ⟨fun i => by rw [txFor_createGen], Or.inr ⟨rfl, ?_⟩⟩
        exact ⟨_, hb.symm, rfl, rfl⟩

theorem ratTruncToInt_eq_floor {q : ℚ} (h : 0 ≤ q) : ratTruncToInt q = ⌊q⌋ :=
  if_pos h

/-! ## Claim C3: narration speed calculator -/

/-- Claim C3, counterexample: for the narration `"hello"` (1 word) and
video duration `-3`, the code returns `-0.1` (Go's `int` cast truncates
toward zero), while "required truncated downward (floor) to one decimal
place" would be `-0.2`; so the claim's final clause fails at this input. -/
theorem c3_counterexample :
    EstimateTTSDuration "hello" = 2 / 5 ∧
    CalculateOptimalSpeed "hello" (-3) = .ok (-(1 / 10)) ∧
    ((⌊((2 / 5 : ℚ) / (-3)) * 10⌋ : ℚ) / 10 = -(1 / 5)) ∧
    (-(1 / 10) : ℚ) ≠ -(1 / 5) := by
  have hw : wordCount "hello" = 1 := by decide
  have he : EstimateTTSDuration "hello" = 2 / 5 := by
    rw [EstimateTTSDuration, hw]; norm_num
  have htr : ratTruncToInt (-(4 / 3) : ℚ) = -1 := by
    rw [ratTruncToInt, if_neg (by norm_num), Int.ceil_neg]
    norm_num
  refine ⟨he, ?_, ?_, by norm_num⟩
  · simp only [CalculateOptimalSpeed, he]
    norm_num [htr]
  · rw [show ((2 / 5 : ℚ) / (-3)) * 10 = -(4 / 3) by norm_num]
    norm_num

/-- Claim C3 (amended): `CalculateOptimalSpeed` computes
`estimatedSeconds = wordCount/2.5` and `target = d - 0.5` (using `d` when
`d - 0.5 ≤ 0`); returns speed 1.0 when `estimatedSeconds ≤ target`;
otherwise, with `required = estimatedSeconds/target` (`+Inf` when
`target = 0`), fails with NarrationTooLong when `required > 1.5`, returns
1.3 when `1.3 < required ≤ 1.5`, and otherwise returns `required`
truncated *toward zero* to one decimal place — which equals downward
truncation (floor to the nearest 0.1) for every duration `d ≥ 1`. -/
theorem c3_speed_calculator (text : String) (d : Int) (e tgt : ℚ)
    (he : e = (wordCount text : ℚ) / (5 / 2))
    (htgt : tgt = if (d : ℚ) - 1 / 2 ≤ 0 then (d : ℚ) else (d : ℚ) - 1 / 2) :
    (e ≤ tgt → CalculateOptimalSpeed text d = .ok 1) ∧
    (¬ e ≤ tgt → tgt = 0 → CalculateOptimalSpeed text d = .narrationTooLong) ∧
    (¬ e ≤ tgt → tgt ≠ 0 → 3 / 2 < e / tgt →
      CalculateOptimalSpeed text d = .narrationTooLong) ∧
    (¬ e ≤ tgt → tgt ≠ 0 → 13 / 10 < e / tgt → e / tgt ≤ 3 / 2 →
      CalculateOptimalSpeed text d = .ok (13 / 10)) ∧
    (¬ e ≤ tgt → tgt ≠ 0 → e / tgt ≤ 13 / 10 →
      CalculateOptimalSpeed text d = .ok ((ratTruncToInt (e / tgt * 10) : ℚ) / 10)) ∧
    (1 ≤ d → ¬ e ≤ tgt → e / tgt ≤ 13 / 10 →
      CalculateOptimalSpeed text d = .ok ((⌊e / tgt * 10⌋ : ℚ) / 10)) := by
  have hme : EstimateTTSDuration text = e := by rw [EstimateTTSDuration, he]
  have hd1 : 1 ≤ d → tgt = (d : ℚ) - 1 / 2 := by
    intro h1
    have : ¬ ((d : ℚ) - 1 / 2 ≤ 0) := by
      have : (1 : ℚ) ≤ (d : ℚ) := by exact_mod_cast h1
      linarith
    rw [htgt, if_neg this]
  have htgtpos : 1 ≤ d → 0 < tgt := by
    intro h1
    rw [hd1 h1]
    have : (1 : ℚ) ≤ (d : ℚ) := by exact_mod_cast h1
    linarith
  have henn : 0 ≤ e := by
    rw [he]; positivity
  refine ⟨?_, ?_, ?_, ?_, ?_, ?_⟩
  · intro h
    simp only [CalculateOptimalSpeed, hme, ← htgt, if_pos h]
  · intro h h0
    simp only [CalculateOptimalSpeed, hme, ← htgt, if_neg h, if_pos h0]
  · intro h h0 h15
    have h13 : 13 / 10 < e / tgt := lt_trans (by norm_num) h15
    simp only [CalculateOptimalSpeed, hme, ← htgt, if_neg h, if_neg h0,
      if_pos h13, if_pos h15]
  · intro h h0 h13 h15
    simp only [CalculateOptimalSpeed, hme, ← htgt, if_neg h, if_neg h0,
      if_pos h13, if_neg (not_lt.mpr h15)]
  · intro h h0 h13
    simp only [CalculateOptimalSpeed, hme, ← htgt, if_neg h, if_neg h0,
      if_neg (not_lt.mpr h13)]
  · intro h1 h h13
    have h0 : tgt ≠ 0 := ne_of_gt (htgtpos h1)
    have hreq : 0 ≤ e / tgt * 10 := by
      have := div_nonneg henn (le_of_lt (htgtpos h1))
      linarith
    simp only [CalculateOptimalSpeed, hme, ← htgt, if_neg h, if_neg h0,
      if_neg (not_lt.mpr h13), ratTruncToInt_eq_floor hreq]

/-- Closed instance of `c3_speed_calculator` at the spec's own example:
100 words, duration 60 → speed 1.0. -/
theorem c3_witness : CalculateOptimalSpeed "hello" 60 = .ok 1 := by
  have hw : (wordCount "hello" : ℚ) = 1 := by
    rw [show wordCount "hello" = 1 by decide]; norm_num
  refine (c3_speed_calculator "hello" 60 (2 / 5) (119 / 2) ?_ ?_).1 (by norm_num)
  · rw [hw]; norm_num
  · norm_num

/-! ## Claim C4: video call parameter clamps -/

/-- Claim C4: the effective duration is the requested duration (6 when
non-positive) capped at 6, or at 10 for the Hailuo-02 family when the
requested resolution is not `"1080P"`; an effective duration above 6
forces the sent resolution to `"768P"`; a Hailuo-02 model with an unset
resolution sends `"768P"`; and `"hailuo-02"` at duration 9 with `"1080P"`
yields duration 6 with `"1080P"` kept. -/
theorem c4_video_clamp (model0 : String) (duration0 : Int) (resolution0 : String) :
    ((clampVideoCall model0 duration0 resolution0).duration =
      min (if duration0 ≤ 0 then 6 else duration0)
        (if isHailuoFamily (clampVideoCall model0 duration0 resolution0).model ∧
            resolution0 ≠ "1080P" then 10 else 6)) ∧
    (6 < (clampVideoCall model0 duration0 resolution0).duration →
      (clampVideoCall model0 duration0 resolution0).resolution = some "768P") ∧
    (isHailuoFamily (clampVideoCall model0 duration0 resolution0).model = true →
      resolution0 = "" →
      (clampVideoCall model0 duration0 resolution0).resolution = some "768P") ∧
    clampVideoCall "hailuo-02" 9 "1080P" =
      ⟨"hailuo-02", 6, some "1080P"⟩ := by
  refine ⟨?_, ?_, ?_, by decide⟩
  · simp only [clampVideoCall]
    split_ifs <;> simp_all <;> omega
  · simp only [clampVideoCall]
    split_ifs <;> simp_all
  · simp only [clampVideoCall]
    split_ifs <;> simp_all

/-- Closed instance of `c4_video_clamp`: `"hailuo-02"` at duration 9 with
an unset resolution gets the 10-second cap, and the above-6 duration
forces the sent resolution to `"768P"`. -/
theorem c4_witness :
    (clampVideoCall "hailuo-02" 9 "").resolution = some "768P" :=
  (c4_video_clamp "hailuo-02" 9 "").2.1 (by decide)

/-! ## Claim C5: polling timeout selection -/

/-- Claim C5, counterexample: `"hailuo-02"` is in the family that receives
the 10-second duration allowance, yet the poll timeout chosen for it is
300 seconds, not the 600 seconds the claim asserts for every family
member. -/
theorem c5_counterexample :
    isHailuoFamily "hailuo-02" = true ∧
    pollTimeoutSeconds "hailuo-02" = 300 ∧ (300 : Nat) ≠ 600 := by
  refine ⟨by decide, by decide, by decide⟩

/-- Claim C5 (amended): the polling timeout is 300 seconds for every model
other than the exact string `"MiniMax-Hailuo-02"`, and 600 seconds for
that one; in particular `"hailuo-02"`, although in the duration-allowance
family, gets the 300-second default. -/
theorem c5_poll_timeout :
    pollTimeoutSeconds "MiniMax-Hailuo-02" = 600 ∧
    (∀ m : String, m ≠ "MiniMax-Hailuo-02" → pollTimeoutSeconds m = 300) ∧
    isHailuoFamily "hailuo-02" = true ∧ pollTimeoutSeconds "hailuo-02" = 300 := by
  refine ⟨by decide, ?_, by decide, by decide⟩
  intro m hm
  rw [pollTimeoutSeconds, if_neg hm]

/-- Closed instance of `c5_poll_timeout` at model `"video-01"`. -/
theorem c5_witness : pollTimeoutSeconds "video-01" = 300 :=
  c5_poll_timeout.2.1 "video-01" (by decide)

/-! ## Claim C10: TTS parameter clamping -/

/-- Claim C10: the speed sent to the provider lies in `[0.5, 2.0]` — a
requested speed below 0.5 is raised to 0.5, one above 2.0 is lowered to
2.0, anything in range passes through — and an empty voice id is replaced
by the default voice `"male-qn-qingse"`. -/
theorem c10_tts_clamp (v : String) (s : ℚ) :
    1 / 2 ≤ (ttsSentParams v s).2 ∧ (ttsSentParams v s).2 ≤ 2 ∧
    (s < 1 / 2 → (ttsSentParams v s).2 = 1 / 2) ∧
    (2 < s → (ttsSentParams v s).2 = 2) ∧
    (1 / 2 ≤ s → s ≤ 2 → (ttsSentParams v s).2 = s) ∧
    (v = "" → (ttsSentParams v s).1 = ttsDefaultVoice) ∧
    (v ≠ "" → (ttsSentParams v s).1 = v) := by
  simp only [ttsSentParams]
  split_ifs with h1 h2 h3 h4 <;>
    refine ⟨by linarith, by linarith, ?_, ?_, ?_, ?_, ?_⟩ <;>
    intros <;> first | rfl | linarith | simp_all

/-- Closed instance of `c10_tts_clamp`: speed 3 is lowered to 2, empty
voice id becomes the default. -/
theorem c10_witness :
    (ttsSentParams "" 3).2 = 2 ∧ (ttsSentParams "" 3).1 = ttsDefaultVoice :=
  ⟨(c10_tts_clamp "" 3).2.2.2.1 (by norm_num),
   (c10_tts_clamp "" 3).2.2.2.2.2.1 rfl⟩

/-! ## Claim C8: poll loop -/

/-- A run of only non-terminal ticks ends in the timeout error. -/
theorem pollLoop_timeout_of_nonterminal :
    ∀ ticks : List PollTick, (∀ t ∈ ticks, nonTerminalTick t) →
      pollLoop ticks = .error .timeout := by
  intro ticks h
  induction ticks with
  | nil => rfl
  | cons t rest ih =>
    have htail := ih (fun u hu => h u (List.mem_cons_of_mem _ hu))
    cases t with
    | queryErr => simpa [pollLoop] using htail
    | result st lk =>
      have hnt := h _ (List.mem_cons_self _ _)
      simp only [nonTerminalTick, nonTerminalLabel] at hnt
      simp only [pollLoop, if_neg hnt.1, if_neg hnt.2]
      exact htail

/-- Claim C8, counterexample: a tick whose label is `"Success"` but whose
indirect file-id lookup fails terminates the loop with the lookup's error,
not successfully — against the claim's "terminates the loop successfully". -/
theorem c8_counterexample :
    pollLoop [PollTick.result ⟨"Success", "f123", ""⟩ none] =
      .error .fileLookupFailed ∧
    (pollLoop [PollTick.result ⟨"Success", "f123", ""⟩ none]).isSuccess = false := by
  refine ⟨by decide, by decide⟩

/-- Claim C8 (amended): a `"Success"`/`"Completed"` label terminates the
loop — successfully, resolving the download URL through one extra lookup
when the result carries a non-empty file id, but with the lookup's error
when that lookup fails; `"Failed"`/`"Error"` terminates with failure; any
other label and any status-query error continues the loop; and a deadline
reached without a terminal tick yields the Timeout error. -/
theorem c8_poll_loop (ticks rest : List PollTick) (st : TaskStatusRec)
    (lookup : Option String) (url : String) :
    ((st.status = "Success" ∨ st.status = "Completed") → st.fileID = "" →
      pollLoop (.result st lookup :: rest) = .ok st) ∧
    ((st.status = "Success" ∨ st.status = "Completed") → st.fileID ≠ "" →
      lookup = some url →
      pollLoop (.result st lookup :: rest) = .ok { st with downloadURL := url }) ∧
    ((st.status = "Success" ∨ st.status = "Completed") → st.fileID ≠ "" →
      lookup = none →
      pollLoop (.result st lookup :: rest) = .error .fileLookupFailed) ∧
    ((st.status = "Failed" ∨ st.status = "Error") →
      pollLoop (.result st lookup :: rest) = .error .jobFailed) ∧
    (nonTerminalLabel st.status →
      pollLoop (.result st lookup :: rest) = pollLoop rest) ∧
    (pollLoop (.queryErr :: rest) = pollLoop rest) ∧
    ((∀ t ∈ ticks, nonTerminalTick t) → pollLoop ticks = .error .timeout) ∧
    (∀ (taskEnv : Nat → PollTick) (timeoutSeconds : Nat),
      (∀ k, k < timeoutSeconds / 5 → nonTerminalTick (taskEnv k)) →
      WaitForCompletion taskEnv timeoutSeconds = .error .timeout) := by
  have hterm : (st.status = "Failed" ∨ st.status = "Error") →
      ¬ (st.status = "Success" ∨ st.status = "Completed") := by
    rintro (hf | hf) (hs | hs) <;> rw [hf] at hs <;> exact absurd hs (by decide)
  refine ⟨?_, ?_, ?_, ?_, ?_, ?_, pollLoop_timeout_of_nonterminal ticks, ?_⟩
  · intro hs hf
    simp only [pollLoop, if_pos hs, hf]
    simp
  · intro hs hf hl
    simp only [pollLoop, if_pos hs, hl]
    simp [hf]
  · intro hs hf hl
    simp only [pollLoop, if_pos hs, hl]
    simp [hf]
  · intro hfe
    simp only [pollLoop, if_neg (hterm hfe), if_pos hfe]
  · intro hnt
    simp only [pollLoop, if_neg hnt.1, if_neg hnt.2]
  · rfl
  · intro taskEnv timeoutSeconds henv
    refine pollLoop_timeout_of_nonterminal _ ?_
    intro t ht
    obtain ⟨k, hk, rfl⟩ := List.mem_map.mp ht
    exact henv k (List.mem_range.mp hk)

/-- Closed instance of `c8_poll_loop`: a loop seeing a query error, an
unrecognized `"Queueing"` label, and then `"Success"` with a resolvable
file id returns the resolved URL; and a 300-second run of query errors
times out. -/
theorem c8_witness :
    pollLoop [PollTick.queryErr,
      PollTick.result ⟨"Queueing", "", ""⟩ none,
      PollTick.result ⟨"Success", "f1", ""⟩ (some "http://dl")] =
      .ok ⟨"Success", "f1", "http://dl"⟩ ∧
    WaitForCompletion (fun _ => PollTick.queryErr) 300 = .error .timeout := by
  have h := c8_poll_loop [] [] ⟨"Success", "f1", ""⟩ (some "http://dl") "http://dl"
  refine ⟨?_, ?_⟩
  · have hstep := h.2.1 (Or.inl rfl) (by decide) rfl
    have h2 := c8_poll_loop [] [PollTick.result ⟨"Success", "f1", ""⟩ (some "http://dl")]
      ⟨"Queueing", "", ""⟩ none "u"
    have hq := h2.2.2.2.2.1 (by refine ⟨by decide, by decide⟩)
    have hqe := (c8_poll_loop [] [PollTick.result ⟨"Queueing", "", ""⟩ none,
      PollTick.result ⟨"Success", "f1", ""⟩ (some "http://dl")] ⟨"x", "", ""⟩ none "u").2.2.2.2.2.1
    rw [hqe, hq, hstep]
  · exact h.2.2.2.2.2.2.2 (fun _ => PollTick.queryErr) 300 (fun k _ => trivial)

/-! ## Claim C9: notification hub broadcast -/

/-- `sendToUser` over an explicit client list. -/
theorem sendToUser_eq (cs : List WSClient) (uid : Nat) (wf : Nat → Bool) :
    sendToUser ⟨cs⟩ uid wf =
      (cs.filter (fun c => c.userId = uid)).map
        (fun c => (c.connId, !(wf c.connId))) := by
  induction cs with
  | nil => rfl
  | cons c rest ih =>
    simp only [sendToUser, List.foldr] at ih ⊢
    by_cases hc : c.userId = uid
    · simp [List.filter_cons, hc, ih]
    · simp [List.filter_cons, hc, ih]

/-- Claim C9: `SendToUser` attempts delivery to exactly the registered
connections owned by the user; each owned connection's attempt is present
regardless of which other connections' writes fail, and the set of
attempted connections does not depend on the failure pattern at all.  The
function is total (the Go method has no error return), so it never raises. -/
theorem c9_broadcast (h : WSHub) (uid : Nat) (writeFails writeFails2 : Nat → Bool) :
    ((sendToUser h uid writeFails).map Prod.fst =
      (h.clients.filter (fun c => c.userId = uid)).map WSClient.connId) ∧
    (∀ c ∈ h.clients, c.userId = uid →
      (c.connId, !(writeFails c.connId)) ∈ sendToUser h uid writeFails) ∧
    ((sendToUser h uid writeFails).map Prod.fst =
      (sendToUser h uid writeFails2).map Prod.fst) := by
  obtain ⟨cs⟩ := h
  refine ⟨?_, ?_, ?_⟩
  · rw [sendToUser_eq, List.map_map]
    rfl
  · intro c hc hcu
    rw [sendToUser_eq]
    exact List.mem_map.mpr ⟨c, List.mem_filter.mpr ⟨hc, by simp [hcu]⟩, rfl⟩
  · rw [sendToUser_eq, sendToUser_eq, List.map_map, List.map_map]
    rfl

/-- Closed instance of `c9_broadcast`, mirroring the spec's example: three
live connections for user 5, the write on connection 2 fails; connections
1 and 3 still receive the message and the call returns normally. -/
theorem c9_witness :
    (1, true) ∈ sendToUser ⟨[⟨1, 5⟩, ⟨2, 5⟩, ⟨3, 5⟩]⟩ 5 (fun n => n = 2) ∧
    (2, false) ∈ sendToUser ⟨[⟨1, 5⟩, ⟨2, 5⟩, ⟨3, 5⟩]⟩ 5 (fun n => n = 2) ∧
    (3, true) ∈ sendToUser ⟨[⟨1, 5⟩, ⟨2, 5⟩, ⟨3, 5⟩]⟩ 5 (fun n => n = 2) := by
  have h := c9_broadcast ⟨[⟨1, 5⟩, ⟨2, 5⟩, ⟨3, 5⟩]⟩ 5 (fun n => n = 2)
    (fun n => n = 2)
  exact ⟨h.2.1 ⟨1, 5⟩ (by decide) rfl, h.2.1 ⟨2, 5⟩ (by decide) rfl,
    h.2.1 ⟨3, 5⟩ (by decide) rfl⟩

/-! ## Claim C6: credit cost and insufficient-credit rejection -/

/-- Claim C6: the credit cost is 1 for music, 2 for video, 3 for video
with narration (both as checked and as recorded on the created job); and
a submission by a user whose balance is below the cost fails with the
payment rejection returning the database unchanged — no job record, no
balance change, no ledger entry. -/
theorem c6_cost_and_preflight :
    videoCreditCost "" = 2 ∧
    (∀ n : String, n ≠ "" → videoCreditCost n = 3) ∧
    (∀ (cfg : Bool) (db : DB) (uid newId : Nat) (req : MusicRequest),
      db.credits uid < 1 →
      musicSubmit cfg db uid newId req = (db, .rejectedPayment)) ∧
    (∀ (cfg : Bool) (db : DB) (uid newId : Nat) (req : VideoRequest),
      db.credits uid < videoCreditCost req.narration →
      videoSubmit cfg db uid newId req = (db, .rejectedPayment)) ∧
    (∀ (cfg : Bool) (db : DB) (uid newId : Nat) (req : MusicRequest) (p : PendingJob),
      (musicSubmit cfg db uid newId req).2 = .launched p →
        p.gen.creditsCost = 1) ∧
    (∀ (cfg : Bool) (db : DB) (uid newId : Nat) (req : VideoRequest) (p : PendingJob),
      (videoSubmit cfg db uid newId req).2 = .launched p →
        p.gen.creditsCost = videoCreditCost req.narration) := by
  refine ⟨by decide, ?_, ?_, ?_, ?_, ?_⟩
  · intro n hn
    rw [videoCreditCost, if_pos hn]
  · intro cfg db uid newId req h
    simp only [musicSubmit, if_pos h]
  · intro cfg db uid newId req h
    simp only [videoSubmit, if_pos h]
  · intro cfg db uid newId req p h
    rcases hsub : musicSubmit cfg db uid newId req with ⟨db1, s⟩
    rw [hsub] at h
    rcases musicSubmit_cases _ _ _ _ _ _ _ hsub with ⟨_, hs⟩ |
      ⟨_, ⟨_, g2, hs, _⟩ | ⟨_, q, hs, _, hqc⟩⟩
    · rw [hs] at h
      exact absurd h (by simp)
    · rw [hs] at h
      exact absurd h (by simp)
    · rw [hs] at h
      have hq : q = p := by
        injection h
      rw [← hq]
      exact hqc
  · intro cfg db uid newId req p h
    rcases hsub : videoSubmit cfg db uid newId req with ⟨db1, s⟩
    rw [hsub] at h
    rcases videoSubmit_cases _ _ _ _ _ _ _ hsub with ⟨_, hs | ⟨m, hs⟩⟩ |
      ⟨_, ⟨_, g2, hs, _⟩ | ⟨_, q, hs, _, hqc⟩⟩
    · rw [hs] at h
      exact absurd h (by simp)
    · rw [hs] at h
      exact absurd h (by simp)
    · rw [hs] at h
      exact absurd h (by simp)
    · rw [hs] at h
      have hq : q = p := by
        injection h
      rw [← hq]
      exact hqc

/-- Closed instance of `c6_cost_and_preflight`: a music submission with
balance 0 and a narrated video submission with balance 2 (cost 3) are both
rejected with the database unchanged. -/
theorem c6_witness :
    musicSubmit true ⟨fun _ => 0, [], []⟩ 1 1 {} =
      (⟨fun _ => 0, [], []⟩, .rejectedPayment) ∧
    videoSubmit true ⟨fun _ => 2, [], []⟩ 1 1 { narration := "hi" } =
      (⟨fun _ => 2, [], []⟩, .rejectedPayment) ∧
    videoCreditCost "hi" = 3 :=
  ⟨c6_cost_and_preflight.2.2.1 true _ 1 1 {} (by decide),
   c6_cost_and_preflight.2.2.2.1 true _ 1 1 _ (by decide),
   c6_cost_and_preflight.2.1 "hi" (by decide)⟩

/-! ## Claim C7: narration-too-long rejection at submission -/

/-- Claim C7: when the request carries a narration (and passes the credit
check, which the handler runs first), the speed calculator is evaluated at
submission time against the narration and the defaulted duration; if it
reports NarrationTooLong the request is rejected synchronously with the
database unchanged — before any job record or other mutation — with a
message stating the narration's word count and the maximum allowed words
for that duration. -/
theorem c7_narration_rejection (cfg : Bool) (db : DB) (uid newId : Nat)
    (req : VideoRequest) (hn : req.narration ≠ "")
    (hc : ¬ db.credits uid < videoCreditCost req.narration)
    (hs : CalculateOptimalSpeed req.narration
        (if req.duration = 0 then 6 else req.duration) = .narrationTooLong) :
    videoSubmit cfg db uid newId req =
      (db, .rejectedNarration (narrationTooLongMessage (wordCount req.narration)
        (maxWordsFor (if req.duration = 0 then 6 else req.duration))
        (if req.duration = 0 then 6 else req.duration))) := by
  simp only [videoSubmit, if_neg hc, if_pos (And.intro hn hs)]

/-- Closed instance of `c7_narration_rejection`: a 30-word narration on a
6-second video (maximum ≈ 19 words) is rejected at submission. -/
theorem c7_witness :
    videoSubmit true ⟨fun _ => 10, [], []⟩ 1 1 { narration := c7narr, duration := 6 } =
      (⟨fun _ => 10, [], []⟩, .rejectedNarration
        (narrationTooLongMessage (wordCount c7narr) (maxWordsFor 6) 6)) := by
  have hw : wordCount c7narr = 30 := by decide
  have hs : CalculateOptimalSpeed c7narr 6 = .narrationTooLong := by
    simp only [CalculateOptimalSpeed, EstimateTTSDuration, hw]
    norm_num
  exact c7_narration_rejection true _ 1 1 _ (by decide) (by decide) hs

/-! ## Claim C1: ledger entry iff Completed -/

/-- Claim C1 (amended): for a job processed by a configured pipeline
(music or video), a ledger entry with amount `-cost` referencing the job
exists after the pipeline iff the job's final status is Completed, and no
entry exists when it is Failed; but on the unconfigured-provider (demo)
path the job ends Completed with *no* ledger entry and no debit. -/
theorem c1_ledger_iff (menv : MusicEnv) (venv : VideoEnv) (db : DB)
    (uid newId : Nat) (mreq : MusicRequest) (vreq : VideoRequest)
    (hfresh : txFor db newId = []) :
    (∀ db' g, generateMusic true menv db uid newId mreq = (db', some g) →
      ((g.status = .completed ∧
          ∃ t, txFor db' newId = [t] ∧ t.amount = -g.creditsCost) ∨
       (g.status = .failed ∧ txFor db' newId = []))) ∧
    (∀ db' g, generateMusic false menv db uid newId mreq = (db', some g) →
      g.status = .completed ∧ txFor db' newId = []) ∧
    (∀ db' g, generateVideo true venv db uid newId vreq = (db', some g) →
      ((g.status = .completed ∧
          ∃ t, txFor db' newId = [t] ∧ t.amount = -g.creditsCost) ∨
       (g.status = .failed ∧ txFor db' newId = []))) ∧
    (∀ db' g, generateVideo false venv db uid newId vreq = (db', some g) →
      g.status = .completed ∧ txFor db' newId = []) := by
  refine ⟨?_, ?_, ?_, ?_⟩
  · intro db' g heq
    rcases hsub : musicSubmit true db uid newId mreq with ⟨db1, s⟩
    simp only [generateMusic] at heq
    rw [hsub] at heq
    rcases musicSubmit_cases _ _ _ _ _ _ _ hsub with ⟨_, hs⟩ |
      ⟨htx, ⟨hcfg, _⟩ | ⟨_, p, hs, hid, hcost⟩⟩
    · rw [hs] at heq
      simp at heq
    · simp at hcfg
    · rw [hs] at heq
      simp only [] at heq
      rcases hrun : runMusicPipeline menv db1 p.gen p.userCredits with ⟨db2, g2⟩
      rw [hrun] at heq
      simp only [Prod.mk.injEq, Option.some.injEq] at heq
      obtain ⟨hdb2, hg2⟩ := heq
      subst hdb2
      subst hg2
      have hfresh1 : txFor db1 p.gen.id = [] := by
        rw [hid, htx, hfresh]
      rcases runMusicPipeline_cases _ _ _ _ _ _ hfresh1 hrun with
        ⟨hst, hcc, t, htxe, hamt⟩ | ⟨hst, htxe⟩
      · refine Or.inl ⟨hst, t, ?_, ?_⟩
        · rw [← hid]
          exact htxe
        · rw [hcc, hcost]
          exact hamt
      · refine Or.inr ⟨hst, ?_⟩
        rw [← hid]
        exact htxe
  · intro db' g heq
    rcases hsub : musicSubmit false db uid newId mreq with ⟨db1, s⟩
    simp only [generateMusic] at heq
    rw [hsub] at heq
    rcases musicSubmit_cases _ _ _ _ _ _ _ hsub with ⟨_, hs⟩ |
      ⟨htx, ⟨_, g2, hs, hst⟩ | ⟨hcfg, _⟩⟩
    · rw [hs] at heq
      simp at heq
    · rw [hs] at heq
      simp only [Prod.mk.injEq, Option.some.injEq] at heq
      obtain ⟨hdb1, hg2⟩ := heq
      subst hdb1
      subst hg2
      exact ⟨hst, by rw [htx, hfresh]⟩
    · simp at hcfg
  · intro db' g heq
    rcases hsub : videoSubmit true db uid newId vreq with ⟨db1, s⟩
    simp only [generateVideo] at heq
    rw [hsub] at heq
    rcases videoSubmit_cases _ _ _ _ _ _ _ hsub with ⟨_, hs | ⟨m, hs⟩⟩ |
      ⟨htx, ⟨hcfg, _⟩ | ⟨_, p, hs, hid, _⟩⟩
    · rw [hs] at heq
      simp at heq
    · rw [hs] at heq
      simp at heq
    · simp at hcfg
    · rw [hs] at heq
      simp only [] at heq
      rcases hrun : runVideoPipeline venv db1 p with ⟨db2, g2⟩
      rw [hrun] at heq
      simp only [Prod.mk.injEq, Option.some.injEq] at heq
      obtain ⟨hdb2, hg2⟩ := heq
      subst hdb2
      subst hg2
      have hfresh1 : txFor db1 p.gen.id = [] := by
        rw [hid, htx, hfresh]
      rcases runVideoPipeline_cases _ _ _ _ _ hfresh1 hrun with
        ⟨hst, t, htxe, hamt⟩ | ⟨hst, htxe⟩
      · refine Or.inl ⟨hst, t, ?_, hamt⟩
        rw [← hid]
        exact htxe
      · refine Or.inr ⟨hst, ?_⟩
        rw [← hid]
        exact htxe
  · intro db' g heq
    rcases hsub : videoSubmit false db uid newId vreq with ⟨db1, s⟩
    simp only [generateVideo] at heq
    rw [hsub] at heq
    rcases videoSubmit_cases _ _ _ _ _ _ _ hsub with ⟨_, hs | ⟨m, hs⟩⟩ |
      ⟨htx, ⟨_, g2, hs, hst⟩ | ⟨hcfg, _⟩⟩
    · rw [hs] at heq
      simp at heq
    · rw [hs] at heq
      simp at heq
    · rw [hs] at heq
      simp only [Prod.mk.injEq, Option.some.injEq] at heq
      obtain ⟨hdb1, hg2⟩ := heq
      subst hdb1
      subst hg2
      exact ⟨hst, by rw [htx, hfresh]⟩
    · simp at hcfg

/-- Claim C1, counterexample: on the unconfigured-provider (demo-mode)
path the music handler sets the job Completed yet writes no ledger entry,
so "an entry with amount −cost exists iff final status is Completed" fails
on that path. -/
theorem c1_counterexample :
    c1run.2.map Generation.status = some GenerationStatus.completed ∧
    txFor c1run.1 1 = [] ∧
    ¬ ((txFor c1run.1 1 ≠ []) ↔
        c1run.2.map Generation.status = some GenerationStatus.completed) := by
  refine ⟨by decide, by decide, ?_⟩
  intro hiff
  exact hiff.mpr (by decide) (by decide)

/-- Closed instance of `c1_ledger_iff`: a configured music run whose
provider call fails ends Failed with no ledger entry for the job. -/
theorem c1_witness :
    (c1failedGen.status = GenerationStatus.completed ∧
      ∃ t, txFor (generateMusic true ⟨none, false, none⟩ c1db0 0 1 c1req).1 1 = [t] ∧
        t.amount = -c1failedGen.creditsCost) ∨
    (c1failedGen.status = GenerationStatus.failed ∧
      txFor (generateMusic true ⟨none, false, none⟩ c1db0 0 1 c1req).1 1 = []) :=
  (c1_ledger_iff ⟨none, false, none⟩ ⟨none, none, none, false⟩ c1db0 0 1 c1req {}
    (by decide)).1 _ c1failedGen rfl

/-! ## Claim C2: ledger balance snapshots -/

/-- Claim C2 (code-bug evaluation): in the concurrent-completion scenario
`c2scenario` — two music jobs of user 7 submitted while the balance is 10,
both completing afterwards — every entry satisfies
`balance_after = balance_before + amount`, and the live balance equals the
initial balance plus the sum of the entries' amounts (8 = 10 − 1 − 1); but
both entries carry the submit-time snapshot `balance_before = 10`, so the
most recent entry's `balance_after` is 9 while the live balance is 8,
falsifying the claim's third conjunct. -/
theorem c2_stale_snapshot :
    (∀ t ∈ c2scenario.transactions, t.balanceAfter = t.balanceBefore + t.amount) ∧
    c2scenario.credits 7 =
      10 + (c2scenario.transactions.map CreditTransaction.amount).sum ∧
    c2scenario.credits 7 = 8 ∧
    c2scenario.transactions.getLast?.map CreditTransaction.balanceAfter = some 9 ∧
    c2scenario.transactions.getLast?.map CreditTransaction.balanceAfter ≠
      some (c2scenario.credits 7) := by
  refine ⟨by decide, by decide, by decide, by decide, by decide⟩

end Lumina
